import Mathlib

/-!
Shallow embedding of the WetterMail repository (src/main.py): the
recommendation functions `conditions` and `clothing`, the Kelvin→Celsius
conversion used by `send_email`, the `ConfigManager` operations
(`generate_password_key`, `create_default_config`, `load_config`,
`save_config`) with the Fernet symmetric-encryption scheme modelled
symbolically, and the `send_email` / `UserGUI.on_submit` pipeline with the
SMTP transport modelled as an explicit outcome parameter.
-/

namespace WetterMail

/-- Embeds `conditions` (main.py lines 84-95): maps the main weather
condition code to the additional-clothing phrase. -/
def conditions (main : String) : String :=
  if main ∈ (["Rain", "Drizzle", "Thunderstorm"] : List String) then
    "Kopfbedeckung und "
  else if main ∈ (["Snow"] : List String) then
    "Handschuhe, Kopfbedeckung und "
  else ""

/-- Embeds `clothing` (main.py lines 98-112). In the source the thresholds
arrive as strings and are converted with `int(...)` at each comparison; the
embedding takes the thresholds after that conversion, as integers. -/
def clothing (temperature : Int) (cold_threshold : Int) (warm_threshold : Int) : String :=
  if temperature > warm_threshold then "luftige Kleidung"
  else if temperature < cold_threshold then "warme Kleidung"
  else "normale Kleidung"

/-- Python's built-in `round` on the exact value: nearest integer, ties to
even. Models the call `round(data["main"]["temp"] - 273.15)` at main.py
line 158, with the real-number temperature represented exactly as a
rational. -/
def pyRound (q : ℚ) : Int :=
  let f : Int := q.floor
  let r : ℚ := q - f
  if r < 1/2 then f
  else if 1/2 < r then f + 1
  else if f % 2 = 0 then f else f + 1

/-- Decimal value of an ASCII digit character, `none` otherwise. -/
def pyDigit (c : Char) : Option Nat :=
  if 48 ≤ c.toNat ∧ c.toNat ≤ 57 then some (c.toNat - 48) else none

/-- Accumulates the decimal digits of a numeral, `none` on a non-digit. -/
def pyNatAux : List Char → Nat → Option Nat
  | [], acc => some acc
  | c :: cs, acc =>
    match pyDigit c with
    | some d => pyNatAux cs (acc * 10 + d)
    | none => none

/-- Python's `int(...)` applied to the decimal strings the program stores
for the thresholds (main.py lines 291-292): parses an optional sign and
digits, `none` (a `ValueError` in Python) when the string is not a valid
integer literal. -/
def pyInt (s : String) : Option Int :=
  match s.data with
  | [] => none
  | '-' :: cs =>
    if cs.isEmpty then none else (pyNatAux cs 0).map (fun n => -(n : Int))
  | cs => (pyNatAux cs 0).map (fun n => (n : Int))

/-- Restatement of `pyRound` through `Int.floor`, for `norm_num` evaluation on
concrete rationals. -/
theorem pyRound_eq (q : ℚ) : pyRound q =
    (if q - Int.floor q < 1/2 then Int.floor q
     else if 1/2 < q - Int.floor q then Int.floor q + 1
     else if Int.floor q % 2 = 0 then Int.floor q else Int.floor q + 1) := rfl


/-! ### Symbolic model of the Fernet scheme (`cryptography.fernet`)

The library is external to the repository; it is modelled as an
authenticated symmetric scheme: a token records under which key and with
which fresh nonce it was produced, decryption succeeds exactly on a
well-formed token produced under the same key, and fails (Fernet's
`InvalidToken`) on any other token. -/

/-- Key material of one validly generated Fernet key
(`Fernet.generate_key()`); distinct `material` values are distinct keys. -/
structure FernetKey where
  material : Nat
deriving DecidableEq

/-- A stored ciphertext string: either a token produced by `encrypt` under
some key with some nonce, or arbitrary non-token bytes. -/
inductive FernetToken where
  | enc (key : FernetKey) (plaintext : String) (nonce : Nat)
  | junk (raw : String)
deriving DecidableEq

/-- Models `Fernet(key).encrypt(plaintext)`: non-deterministic in the source via a
fresh IV and timestamp, made explicit here as the `nonce` argument. -/
def fernetEncrypt (key : FernetKey) (nonce : Nat) (plaintext : String) : FernetToken :=
  .enc key plaintext nonce

/-- Models `Fernet(key).decrypt(token)`: `some` plaintext for a token produced
under the same key, `none` (an `InvalidToken` error in the library) for a
token under a different key or non-token bytes. -/
def fernetDecrypt (key : FernetKey) (t : FernetToken) : Option String :=
  match t with
  | .enc k s _ => if k = key then some s else none
  | .junk _ => none

/-- Contents of the key file as bytes: either a structurally valid Fernet
key or arbitrary invalid bytes (wrong length / not base64url). -/
inductive KeyBytes where
  | validKey (k : FernetKey)
  | invalidBytes (raw : String)
deriving DecidableEq

/-- The structural check `Fernet(key)` performs on candidate key bytes
(main.py line 239): true iff the bytes decode to a valid key. -/
def fernetValidate : KeyBytes → Bool
  | .validKey _ => true
  | .invalidBytes _ => false

/-- State of the persisted `passwordKey.txt` file: missing, present but not
readable by this process (an OS-level permission failure), or present with
the given bytes. -/
inductive KeyFileState where
  | absent
  | unreadable
  | stored (b : KeyBytes)
deriving DecidableEq

/-- Python exceptions relevant to the embedded operations. -/
inductive PyError where
  | fileNotFoundError
  | permissionError
  | valueError
  | osError
deriving DecidableEq

/-! ### ConfigManager (main.py lines 211-341) -/

/-- The persisted `config.ini` record: the `[WEATHER]` and `[EMAIL]`
sections. `configparser` stores every value as a string; the encrypted
password field is modelled as `none` for the empty string `""` and
`some t` for a stored ciphertext string `t`. -/
structure SettingsRecord where
  latitude : String
  longitude : String
  language : String
  cold_threshold : String
  warm_threshold : String
  sender_email : String
  encrypted_password : Option FernetToken
  receiver_email : String
deriving DecidableEq

/-- The default record written by `create_default_config`
(main.py lines 250-267). -/
def defaultSettings : SettingsRecord where
  latitude := "51.4344"
  longitude := "6.7623"
  language := "de"
  cold_threshold := "5"
  warm_threshold := "20"
  sender_email := "sender@gmail.com"
  encrypted_password := none
  receiver_email := "receiver@gmail.com"

/-- Embeds `create_default_config` as its effect on the persisted settings
file: the file is overwritten with the default record. -/
def create_default_config (_configFile : Option SettingsRecord) : Option SettingsRecord :=
  some defaultSettings

/-- Embeds `generate_password_key` (main.py lines 228-248) as a function of
the key-file state, the fresh key `Fernet.generate_key()` would produce,
and the settings-file state. Returns the key bytes the method returns
together with the resulting key-file and settings-file states. Reading a
missing file raises `FileNotFoundError` and `Fernet(key)` on invalid bytes
raises `ValueError`; both are caught by the handler, which writes the fresh
key and calls `create_default_config`. Reading an unreadable file raises
`PermissionError`, which the handler does not catch. -/
def generate_password_key (keyFile : KeyFileState) (fresh : FernetKey)
    (configFile : Option SettingsRecord) :
    Except PyError (KeyBytes × KeyFileState × Option SettingsRecord) :=
  match keyFile with
  | .stored b =>
    if fernetValidate b then .ok (b, keyFile, configFile)
    else .ok (.validKey fresh, .stored (.validKey fresh), create_default_config configFile)
  | .absent => .ok (.validKey fresh, .stored (.validKey fresh), create_default_config configFile)
  | .unreadable => .error .permissionError

/-- In-memory state of a `ConfigManager` whose `__init__` has completed:
`self.key` holds a valid Fernet key and the settings file exists. -/
structure ConfigManagerState where
  key : FernetKey
  configFile : SettingsRecord
deriving DecidableEq

/-- The dictionary `load_config` returns (main.py lines 287-296): thresholds
already converted with `int(...)`. -/
structure LoadedConfig where
  latitude : String
  longitude : String
  language : String
  cold_threshold : Int
  warm_threshold : Int
  sender_email : String
  receiver_email : String
  decrypted_password : String
deriving DecidableEq

/-- Embeds `load_config` (main.py lines 269-296). Decryption of a non-empty
stored ciphertext is wrapped in `try/except Exception`, substituting `""`
on any failure; an empty stored ciphertext short-circuits to `""` via the
conditional expression. The `int(...)` conversions of the two thresholds
are not wrapped and raise `ValueError` on a non-numeric stored string. -/
def load_config (st : ConfigManagerState) : Except PyError LoadedConfig :=
  let decrypted_password : String :=
    match st.configFile.encrypted_password with
    | none => ""
    | some t =>
      match fernetDecrypt st.key t with
      | some s => s
      | none => ""
  match pyInt st.configFile.cold_threshold, pyInt st.configFile.warm_threshold with
  | some c, some w =>
    .ok { latitude := st.configFile.latitude
          longitude := st.configFile.longitude
          language := st.configFile.language
          cold_threshold := c
          warm_threshold := w
          sender_email := st.configFile.sender_email
          receiver_email := st.configFile.receiver_email
          decrypted_password := decrypted_password }
  | _, _ => .error .valueError

/-- Embeds `save_config` (main.py lines 298-341): sets every field of both
sections, encrypts the password under the current key (`nonce` makes the
fresh IV explicit) and rewrites the whole settings file. -/
def save_config (st : ConfigManagerState) (latitude longitude language : String)
    (cold_threshold warm_threshold : String) (sender_email receiver_email : String)
    (password : String) (nonce : Nat) : ConfigManagerState where
  key := st.key
  configFile :=
    { latitude := latitude
      longitude := longitude
      language := language
      cold_threshold := cold_threshold
      warm_threshold := warm_threshold
      sender_email := sender_email
      encrypted_password := some (fernetEncrypt st.key nonce password)
      receiver_email := receiver_email }

/-! ### Report pipeline (`send_email`, main.py lines 133-208, and
`UserGUI.on_submit`, main.py lines 506-535) -/

/-- The fields of the fetched weather dictionary that `send_email` reads:
`data["name"]`, `data["weather"][0]["main"]`,
`data["weather"][0]["description"]`, `data["main"]["temp"]` (Kelvin, exact
rational). -/
structure WeatherData where
  name : String
  main : String
  description : String
  temp : ℚ
deriving DecidableEq

/-- The rendered message: the subject line built at main.py line 197 and
the three table rows of the HTML body (lines 175-188) — description,
Celsius temperature, and the advice cell `conditions_txt + clothing_txt`.
`today` is the `datetime.now().strftime` date string, passed explicitly. -/
structure Report where
  subject : String
  region : String
  description : String
  tempC : Int
  advice : String
  today : String
deriving DecidableEq

/-- Outcome of the one SMTP transaction attempted inside the `with` block
(main.py lines 201-204): the server accepts the message; the transaction
fails with an `smtplib.SMTPException` (authentication rejected by
`server.login` — `SMTPAuthenticationError` — or the SMTP-level connection
rejected — `SMTPConnectError`; both subclasses of `SMTPException`); or the
underlying socket connection fails with an `OSError` (host unreachable,
connection refused), which is not an `smtplib.SMTPException`. -/
inductive SmtpEvent where
  | accepted
  | smtpAuthError
  | smtpConnectError
  | socketOsError
deriving DecidableEq

/-- What a call to `send_email` did: its boolean return value, how many
SMTP transactions it attempted, and the report it rendered (if any). -/
structure EmailResult where
  sent : Bool
  deliveryAttempts : Nat
  report : Option Report
deriving DecidableEq

/-- Embeds `send_email` (main.py lines 133-208). `data` is `none` for a
falsy argument (`None` or empty), short-circuited by `if not data` before
anything is rendered or any transport contact is made. Thresholds are taken
after the `int(...)` conversion performed inside `clothing`. The one SMTP
transaction is attempted with outcome `transport`: `except
smtplib.SMTPException` turns SMTP-level failures into the return value
`False`; a socket-level `OSError` is not caught and propagates. -/
def send_email (data : Option WeatherData) (_sender _receiver _password : String)
    (cold_threshold warm_threshold : Int) (today : String) (transport : SmtpEvent) :
    Except PyError EmailResult :=
  match data with
  | none => .ok { sent := false, deliveryAttempts := 0, report := none }
  | some d =>
    let temp : Int := pyRound (d.temp - 273.15)
    let conditions_txt := conditions d.main
    let clothing_txt := clothing temp cold_threshold warm_threshold
    let report : Report :=
      { subject := "Wetterbericht für " ++ d.name ++ " am " ++ today
        region := d.name
        description := d.description
        tempC := temp
        advice := conditions_txt ++ clothing_txt
        today := today }
    match transport with
    | .accepted => .ok { sent := true, deliveryAttempts := 1, report := some report }
    | .smtpAuthError => .ok { sent := false, deliveryAttempts := 1, report := some report }
    | .smtpConnectError => .ok { sent := false, deliveryAttempts := 1, report := some report }
    | .socketOsError => .error .osError

/-- The message box `on_submit` ends with. -/
inductive SubmitOutcome where
  | emailSuccess
  | emailFailure
  | fetchFailure
deriving DecidableEq

/-- Embeds the fetch-and-send path of `UserGUI.on_submit` (main.py lines
506-535): `get_data`'s result is `fetchResult` (`none` for a failed fetch);
on `none` the pipeline shows the fetch-failure message and calls
`send_email` not at all. Returns the outcome message, the number of SMTP
transactions attempted, and the report rendered (if any). The optional
save-inputs step (lines 538-548) is `save_config`, modelled separately. -/
def on_submit (fetchResult : Option WeatherData) (sender receiver password : String)
    (cold_threshold warm_threshold : Int) (today : String) (transport : SmtpEvent) :
    Except PyError (SubmitOutcome × Nat × Option Report) :=
  match fetchResult with
  | none => .ok (.fetchFailure, 0, none)
  | some d =>
    match send_email (some d) sender receiver password cold_threshold warm_threshold
        today transport with
    | .ok r => .ok (if r.sent then .emailSuccess else .emailFailure, r.deliveryAttempts, r.report)
    | .error e => .error e

/-! ### Helper lemmas -/

/-- The function `clothing` returns the light-clothing phrase exactly when the
temperature exceeds the warm threshold, with no assumption on the order of
the thresholds. -/
theorem clothing_eq_light_iff (t c w : Int) :
    clothing t c w = "luftige Kleidung" ↔ t > w := by
  unfold clothing
  by_cases hw : t > w
  · simp [hw]
  · rw [if_neg hw]
    by_cases hc : t < c
    · rw [if_pos hc]
      constructor
      · intro heq; exact absurd heq (by decide)
      · intro hlt; exact absurd hlt hw
    · rw [if_neg hc]
      constructor
      · intro heq; exact absurd heq (by decide)
      · intro hlt; exact absurd hlt hw

/-- The function `clothing` returns the warm-clothing phrase exactly when the warm
branch is not taken and the temperature is below the cold threshold. -/
theorem clothing_eq_warm_iff (t c w : Int) :
    clothing t c w = "warme Kleidung" ↔ ¬t > w ∧ t < c := by
  unfold clothing
  by_cases hw : t > w
  · rw [if_pos hw]
    constructor
    · intro heq; exact absurd heq (by decide)
    · intro hand; exact absurd hw hand.1
  · rw [if_neg hw]
    by_cases hc : t < c
    · rw [if_pos hc]
      exact ⟨fun _ => ⟨hw, hc⟩, fun _ => rfl⟩
    · rw [if_neg hc]
      constructor
      · intro heq; exact absurd heq (by decide)
      · intro hand; exact absurd hand.2 hc

/-- The function `clothing` returns the normal-clothing phrase exactly when neither
guard fires. -/
theorem clothing_eq_normal_iff (t c w : Int) :
    clothing t c w = "normale Kleidung" ↔ ¬t > w ∧ ¬t < c := by
  unfold clothing
  by_cases hw : t > w
  · rw [if_pos hw]
    constructor
    · intro heq; exact absurd heq (by decide)
    · intro hand; exact absurd hw hand.1
  · rw [if_neg hw]
    by_cases hc : t < c
    · rw [if_pos hc]
      constructor
      · intro heq; exact absurd heq (by decide)
      · intro hand; exact absurd hc hand.2
    · rw [if_neg hc]
      exact ⟨fun _ => ⟨hw, hc⟩, fun _ => rfl⟩

/-! ### Claim theorems -/

/-- Claim C4: for all integers `t, c, w` with `c ≤ w`, `clothing` returns
the light-clothing phrase iff `t > w`, the warm-clothing phrase iff
`t < c`, otherwise the normal-clothing phrase; both boundary cases `t = c`
and `t = w` yield the normal-clothing phrase. -/
theorem clothing_temperature_category (t c w : Int) (h : c ≤ w) :
    (clothing t c w = "luftige Kleidung" ↔ t > w) ∧
    (clothing t c w = "warme Kleidung" ↔ t < c) ∧
    (¬t > w → ¬t < c → clothing t c w = "normale Kleidung") ∧
    clothing c c w = "normale Kleidung" ∧
    clothing w c w = "normale Kleidung" := by
  refine ⟨clothing_eq_light_iff t c w, ?_, ?_, ?_, ?_⟩
  · rw [clothing_eq_warm_iff]
    constructor
    · exact fun hand => hand.2
    · intro hc; exact ⟨by omega, hc⟩
  · intro hw hc
    exact (clothing_eq_normal_iff t c w).mpr ⟨hw, hc⟩
  · exact (clothing_eq_normal_iff c c w).mpr ⟨by omega, by omega⟩
  · exact (clothing_eq_normal_iff w c w).mpr ⟨by omega, by omega⟩

/-- Witness for C4 at `t = 20`, `c = 5`, `w = 20`: the upper boundary
yields the normal-clothing phrase. -/
theorem clothing_temperature_category_witness :
    (5 : Int) ≤ 20 ∧ clothing 20 5 20 = "normale Kleidung" :=
  ⟨by decide, (clothing_temperature_category 20 5 20 (by decide)).2.2.2.2⟩

/-- Claim C10: `clothing` tests the warm threshold before the cold one, so
for inverted thresholds `w < c` any `t > w` yields the light-clothing
phrase even when `t < c` also holds, and the warm-clothing phrase is
returned only when `t ≤ w` and `t < c`. -/
theorem clothing_inverted_thresholds (t c w : Int) (h : w < c) :
    (t > w → clothing t c w = "luftige Kleidung") ∧
    (clothing t c w = "warme Kleidung" ↔ t ≤ w ∧ t < c) := by
  constructor
  · intro hw; exact (clothing_eq_light_iff t c w).mpr hw
  · rw [clothing_eq_warm_iff]
    constructor
    · intro hand; exact ⟨by omega, hand.2⟩
    · intro hand; exact ⟨by omega, hand.2⟩

/-- Witness for C10 at `t = 5`, `c = 10`, `w = 0`: `t > w` and `t < c`
both hold, and the light-clothing phrase wins. -/
theorem clothing_inverted_thresholds_witness :
    (0 : Int) < 10 ∧ ((5 : Int) > 0 → clothing 5 10 0 = "luftige Kleidung") :=
  ⟨by decide, (clothing_inverted_thresholds 5 10 0 (by decide)).1⟩

/-- Claim C5: `conditions` returns exactly the head-covering phrase for the
codes Rain, Drizzle and Thunderstorm, exactly the gloves-and-head-covering
phrase for Snow, and the empty string for every other code; the advice cell
of the rendered report is the condition phrase concatenated immediately
before the temperature-category phrase with no extra separator. -/
theorem conditions_phrase_and_concatenation (m : String)
    (hm : m ∉ (["Rain", "Drizzle", "Thunderstorm", "Snow"] : List String))
    (d : WeatherData) (sender receiver password : String) (c w : Int) (today : String) :
    conditions "Rain" = "Kopfbedeckung und " ∧
    conditions "Drizzle" = "Kopfbedeckung und " ∧
    conditions "Thunderstorm" = "Kopfbedeckung und " ∧
    conditions "Snow" = "Handschuhe, Kopfbedeckung und " ∧
    conditions m = "" ∧
    (send_email (some d) sender receiver password c w today .accepted).map
        (fun r => r.report.map Report.advice) =
      .ok (some (conditions d.main ++ clothing (pyRound (d.temp - 273.15)) c w)) := by
  refine ⟨by decide, by decide, by decide, by decide, ?_, rfl⟩
  simp only [List.mem_cons, List.mem_singleton, not_or] at hm
  unfold conditions
  rw [if_neg (by simp [hm.1, hm.2.1, hm.2.2.1]), if_neg (by simp [hm.2.2.2.1])]

/-- Witness for C5 at the code `"Clear"`, which is none of the four rainy
or snowy codes and yields the empty condition phrase. -/
theorem conditions_phrase_and_concatenation_witness :
    "Clear" ∉ (["Rain", "Drizzle", "Thunderstorm", "Snow"] : List String) ∧
    conditions "Clear" = "" :=
  ⟨by decide,
    (conditions_phrase_and_concatenation "Clear" (by decide)
      ⟨"Ruhrort", "Clear", "klarer Himmel", 301.15⟩ "sender@gmail.com"
      "receiver@gmail.com" "pw" 5 20 "01.01.25").2.2.2.2.1⟩

/-- Claim C6: the Celsius temperature placed in the report and fed to the
clothing classification is `pyRound (kelvin - 273.15)` — Python's `round`,
nearest integer with ties to even, applied consistently at the single
conversion site — and `temperature_kelvin = 280.15` yields 7 °C; with
thresholds `(5, 20)` and condition Rain the Ruhrort observation renders
temperature 7 and advice "Kopfbedeckung und normale Kleidung". -/
theorem celsius_conversion (d : WeatherData) (sender receiver password : String)
    (c w : Int) (today : String) :
    send_email (some d) sender receiver password c w today .accepted =
      .ok { sent := true, deliveryAttempts := 1,
            report := some
              { subject := "Wetterbericht für " ++ d.name ++ " am " ++ today
                region := d.name
                description := d.description
                tempC := pyRound (d.temp - 273.15)
                advice := conditions d.main ++ clothing (pyRound (d.temp - 273.15)) c w
                today := today } } ∧
    pyRound ((280.15 : ℚ) - 273.15) = 7 ∧
    (send_email (some ⟨"Ruhrort", "Rain", "light rain", 280.15⟩) sender receiver password
        5 20 today .accepted).map (fun r => r.report.map fun rep => (rep.tempC, rep.advice)) =
      .ok (some (7, "Kopfbedeckung und normale Kleidung")) := by
  have h7 : pyRound ((280.15 : ℚ) - 273.15) = 7 := by rw [pyRound_eq]; norm_num
  refine ⟨rfl, h7, ?_⟩
  show Except.ok (some (pyRound ((280.15 : ℚ) - 273.15),
      conditions "Rain" ++ clothing (pyRound ((280.15 : ℚ) - 273.15)) 5 20)) = _
  rw [h7]
  have hadv : conditions "Rain" ++ clothing 7 5 20 = "Kopfbedeckung und normale Kleidung" := by
    decide
  rw [hadv]

/-- Claim C8: an absent weather-fetch result short-circuits the pipeline:
`on_submit` shows the fetch-failure message, renders no report and attempts
no delivery, and `send_email` called with absent data returns `False` with
zero transport contacts. -/
theorem fetch_failure_short_circuit (sender receiver password : String) (c w : Int)
    (today : String) (transport : SmtpEvent) :
    on_submit none sender receiver password c w today transport =
      .ok (.fetchFailure, 0, none) ∧
    send_email none sender receiver password c w today transport =
      .ok { sent := false, deliveryAttempts := 0, report := none } :=
  ⟨rfl, rfl⟩

/-- Counterexample to C9: an OS-level socket failure while connecting is
not an `smtplib.SMTPException`, so the handler at main.py lines 206-208
does not catch it and `send_email` raises instead of returning `False`. -/
theorem send_email_socket_error_raises :
    send_email (some ⟨"Ruhrort", "Rain", "light rain", 280.15⟩) "sender@gmail.com"
      "receiver@gmail.com" "pw" 5 20 "01.01.25" .socketOsError = .error .osError :=
  rfl

/-- Claim C9 (amended): for every transport outcome other than an OS-level
socket failure, `send_email` returns `True` exactly when the transport
accepts the message; SMTP-level failures — authentication rejection and
SMTP connect rejection, both `smtplib.SMTPException`s — are reported as
`False` and the single transaction is never retried. An OS-level socket
failure propagates as an uncaught exception. -/
theorem send_email_delivery_reporting (d : WeatherData) (sender receiver password : String)
    (c w : Int) (today : String) (transport : SmtpEvent)
    (h : transport ≠ SmtpEvent.socketOsError) :
    ∃ r, send_email (some d) sender receiver password c w today transport = .ok r ∧
      (r.sent = true ↔ transport = SmtpEvent.accepted) ∧ r.deliveryAttempts = 1 := by
  cases transport with
  | accepted => exact ⟨_, rfl, by simp, rfl⟩
  | smtpAuthError => exact ⟨_, rfl, by simp, rfl⟩
  | smtpConnectError => exact ⟨_, rfl, by simp, rfl⟩
  | socketOsError => exact absurd rfl h

/-- Witness for C9 (amended) at an authentication rejection: the result is
`False` after exactly one transaction. -/
theorem send_email_delivery_reporting_witness :
    SmtpEvent.smtpAuthError ≠ SmtpEvent.socketOsError ∧
    ∃ r, send_email (some ⟨"Ruhrort", "Rain", "light rain", 280.15⟩) "sender@gmail.com"
        "receiver@gmail.com" "pw" 5 20 "01.01.25" .smtpAuthError = .ok r ∧
      (r.sent = true ↔ SmtpEvent.smtpAuthError = SmtpEvent.accepted) ∧
      r.deliveryAttempts = 1 :=
  ⟨by decide,
    send_email_delivery_reporting ⟨"Ruhrort", "Rain", "light rain", 280.15⟩
      "sender@gmail.com" "receiver@gmail.com" "pw" 5 20 "01.01.25" .smtpAuthError
      (by decide)⟩

/-- Claim C1: saving the configuration with secret `password` and loading
it again under the same key (no intervening key regeneration) returns a
`decrypted_password` equal to `password`; the threshold strings being valid
integer literals is what keeps the unrelated `int(...)` conversions in
`load_config` from raising. -/
theorem save_load_roundtrip (st : ConfigManagerState)
    (latitude longitude language cold warm sender receiver password : String)
    (nonce : Nat) (c w : Int) (hc : pyInt cold = some c) (hw : pyInt warm = some w) :
    ∃ loaded, load_config
        (save_config st latitude longitude language cold warm sender receiver
          password nonce) = .ok loaded ∧
      loaded.decrypted_password = password := by
  refine ⟨{ latitude := latitude, longitude := longitude, language := language,
            cold_threshold := c, warm_threshold := w, sender_email := sender,
            receiver_email := receiver, decrypted_password := password }, ?_, rfl⟩
  unfold load_config save_config fernetEncrypt fernetDecrypt
  simp only []
  rw [hc, hw]
  simp

/-- Witness for C1: a concrete save followed by a load returns the secret
`"geheim"`. -/
theorem save_load_roundtrip_witness :
    pyInt "5" = some 5 ∧ pyInt "20" = some 20 ∧
    ∃ loaded, load_config
        (save_config { key := ⟨0⟩, configFile := defaultSettings } "51.4344" "6.7623"
          "de" "5" "20" "sender@gmail.com" "receiver@gmail.com" "geheim" 1) =
        .ok loaded ∧
      loaded.decrypted_password = "geheim" :=
  ⟨by decide, by decide,
    save_load_roundtrip { key := ⟨0⟩, configFile := defaultSettings } "51.4344" "6.7623"
      "de" "5" "20" "sender@gmail.com" "receiver@gmail.com" "geheim" 1 5 20
      (by decide) (by decide)⟩

/-- Claim C2: whenever the persisted key is missing or fails validation,
`generate_password_key` regenerates the key and, in the same operation,
resets the persisted settings record to the defaults, whose encrypted
secret field is empty; loading the resulting configuration under the fresh
key reads the secret back as empty, so a fresh key is never paired with
ciphertext produced under the old key. -/
theorem key_regen_resets_secret (keyFile : KeyFileState) (fresh : FernetKey)
    (configFile : Option SettingsRecord)
    (h : keyFile = .absent ∨ ∃ raw, keyFile = .stored (.invalidBytes raw)) :
    generate_password_key keyFile fresh configFile =
      .ok (.validKey fresh, .stored (.validKey fresh), some defaultSettings) ∧
    defaultSettings.encrypted_password = none ∧
    ∃ loaded, load_config { key := fresh, configFile := defaultSettings } = .ok loaded ∧
      loaded.decrypted_password = "" := by
  have hload : ∃ loaded,
      load_config { key := fresh, configFile := defaultSettings } = .ok loaded ∧
        loaded.decrypted_password = "" :=
    ⟨{ latitude := "51.4344", longitude := "6.7623", language := "de",
       cold_threshold := 5, warm_threshold := 20, sender_email := "sender@gmail.com",
       receiver_email := "receiver@gmail.com", decrypted_password := "" }, rfl, rfl⟩
  rcases h with h | ⟨raw, h⟩ <;> subst h
  · exact ⟨rfl, rfl, hload⟩
  · exact ⟨rfl, rfl, hload⟩

/-- Witness for C2 at a key file holding structurally invalid bytes. -/
theorem key_regen_resets_secret_witness :
    (KeyFileState.stored (.invalidBytes "zu-kurz") = KeyFileState.absent ∨
      ∃ raw, KeyFileState.stored (.invalidBytes "zu-kurz") =
        KeyFileState.stored (.invalidBytes raw)) ∧
    generate_password_key (.stored (.invalidBytes "zu-kurz")) ⟨7⟩
        (some defaultSettings) =
      .ok (.validKey ⟨7⟩, .stored (.validKey ⟨7⟩), some defaultSettings) ∧
    defaultSettings.encrypted_password = none ∧
    ∃ loaded, load_config { key := ⟨7⟩, configFile := defaultSettings } = .ok loaded ∧
      loaded.decrypted_password = "" :=
  ⟨Or.inr ⟨"zu-kurz", rfl⟩,
    key_regen_resets_secret (.stored (.invalidBytes "zu-kurz")) ⟨7⟩
      (some defaultSettings) (Or.inr ⟨"zu-kurz", rfl⟩)⟩

/-- Claim C3: decryption is tamper-sensitive — a token produced under a
different key never decrypts to a wrong plaintext — and whenever decryption
of the stored ciphertext fails for any reason, `load_config` returns with
an empty decrypted secret instead of propagating an error. -/
theorem load_config_failsafe_empty (st : ConfigManagerState) (t : FernetToken)
    (henc : st.configFile.encrypted_password = some t)
    (hfail : fernetDecrypt st.key t = none) (c w : Int)
    (hc : pyInt st.configFile.cold_threshold = some c)
    (hw : pyInt st.configFile.warm_threshold = some w) :
    (∀ (k1 : FernetKey) (s : String) (n : Nat), k1 ≠ st.key →
      fernetDecrypt st.key (fernetEncrypt k1 n s) = none) ∧
    ∃ loaded, load_config st = .ok loaded ∧ loaded.decrypted_password = "" := by
  constructor
  · intro k1 s n hne
    unfold fernetDecrypt fernetEncrypt
    simp [hne]
  · refine ⟨{ latitude := st.configFile.latitude, longitude := st.configFile.longitude,
              language := st.configFile.language, cold_threshold := c,
              warm_threshold := w, sender_email := st.configFile.sender_email,
              receiver_email := st.configFile.receiver_email,
              decrypted_password := "" }, ?_, rfl⟩
    unfold load_config
    rw [henc, hc, hw]
    simp [hfail]

/-- Witness for C3: a stored token encrypted under key 1 read by a manager
holding key 0 loads as the empty secret. -/
theorem load_config_failsafe_empty_witness :
    ({ key := ⟨0⟩,
       configFile :=
        { defaultSettings with
            encrypted_password := some (fernetEncrypt ⟨1⟩ 4 "geheim") } } :
      ConfigManagerState).configFile.encrypted_password =
        some (fernetEncrypt ⟨1⟩ 4 "geheim") ∧
    fernetDecrypt (⟨0⟩ : FernetKey) (fernetEncrypt ⟨1⟩ 4 "geheim") = none ∧
    ∃ loaded, load_config
        { key := ⟨0⟩,
          configFile :=
            { defaultSettings with
                encrypted_password := some (fernetEncrypt ⟨1⟩ 4 "geheim") } } =
        .ok loaded ∧
      loaded.decrypted_password = "" :=
  ⟨rfl, by decide,
    (load_config_failsafe_empty
      { key := ⟨0⟩,
        configFile :=
          { defaultSettings with
              encrypted_password := some (fernetEncrypt ⟨1⟩ 4 "geheim") } }
      (fernetEncrypt ⟨1⟩ 4 "geheim") rfl (by decide) 5 20 (by decide) (by decide)).2⟩

/-- Counterexample to C7: a key file that exists but is unreadable raises
`PermissionError`, which the handler `except (FileNotFoundError,
ValueError)` at main.py line 241 does not catch, so `generate_password_key`
raises past its boundary. -/
theorem generate_password_key_unreadable_raises :
    generate_password_key .unreadable ⟨0⟩ none = .error .permissionError :=
  rfl

/-- Claim C7 (amended): for a key file that is absent, structurally
invalid, or holds a valid key — every state except an unreadable file —
`generate_password_key` does not raise and returns key bytes that pass
structural Fernet validation, writing the freshly generated key to the file
when the existing one was absent or invalid. -/
theorem generate_password_key_total_and_valid (keyFile : KeyFileState) (fresh : FernetKey)
    (configFile : Option SettingsRecord) (h : keyFile ≠ KeyFileState.unreadable) :
    ∃ out : KeyBytes × KeyFileState × Option SettingsRecord,
      generate_password_key keyFile fresh configFile = .ok out ∧
      fernetValidate out.1 = true ∧
      ((keyFile = .absent ∨ ∃ raw, keyFile = .stored (.invalidBytes raw)) →
        out.1 = .validKey fresh ∧ out.2.1 = .stored (.validKey fresh)) := by
  cases keyFile with
  | absent => exact ⟨_, rfl, rfl, fun _ => ⟨rfl, rfl⟩⟩
  | unreadable => exact absurd rfl h
  | stored b =>
    cases b with
    | validKey k =>
      refine ⟨_, rfl, rfl, ?_⟩
      rintro (hab | ⟨raw, hraw⟩)
      · exact absurd hab (by simp)
      · exact absurd hraw (by simp)
    | invalidBytes raw => exact ⟨_, rfl, rfl, fun _ => ⟨rfl, rfl⟩⟩

/-- Witness for C7 (amended) at an absent key file: the fresh key is
returned, valid, and written to the file. -/
theorem generate_password_key_total_and_valid_witness :
    KeyFileState.absent ≠ KeyFileState.unreadable ∧
    ∃ out : KeyBytes × KeyFileState × Option SettingsRecord,
      generate_password_key .absent ⟨3⟩ none = .ok out ∧
      fernetValidate out.1 = true ∧
      ((KeyFileState.absent = KeyFileState.absent ∨
          ∃ raw, KeyFileState.absent = KeyFileState.stored (.invalidBytes raw)) →
        out.1 = .validKey ⟨3⟩ ∧ out.2.1 = .stored (.validKey ⟨3⟩)) :=
  ⟨by decide, generate_password_key_total_and_valid .absent ⟨3⟩ none (by decide)⟩

end WetterMail
